import Mathlib

/-!
# Budget Reconciliation & Allocation Engine — verification development

A shallow embedding of the core data transformations of the budget
tracking application:

* text normalization (`src/utils/budget_parser.py`, `normalize_key`),
* budget reshaping wide → long (`src/utils/budget_parser.py`,
  `_load_budget_from_drive`) and long → wide
  (`src/utils/budget_adapter.py`, `adapt_budget_long_to_classification`),
* expense filtering, splitting, conversion and aggregation
  (`src/utils/expense_parser.py`, `parseExpense`),
* the year-to-date reconciliation report
  (`src/components/dashboard.py`, `render_report_dashboard` steps 1–9 and
  `get_status`),
* the classification dashboard summary, allocation adding and the save
  path (`src/components/classification_dashboard.py`,
  `render_classification_dashboard`),
* the persistence layer used by the save path (`src/utils/db.py`,
  `save_budget_state_monthly`).

Dataframes are embedded as lists of records; pandas cells that may fail
numeric coercion are embedded as `Cell`; machine floats are modelled by
`ℚ`; Python exceptions are modelled with `Except`/structured error
values.  Pandas `groupby` (which sorts by its keys) is embedded as
`List.insertionSort` over deduplicated keys, with per-group sums.
-/

namespace BTA

/-! ## Python text primitives

Executable embeddings of the Python string operations used by the
sources: `str.strip`, `str.lower`, `str.upper`, `str.replace(" ", "")`,
`str.split("***")`, `str.title`.  They are defined on the character
lists underlying `String` so that they reduce inside the kernel. -/

/-- Python `str.strip()`: remove leading and trailing whitespace. -/
def pyStrip (s : String) : String :=
  ⟨((s.data.dropWhile Char.isWhitespace).reverse.dropWhile Char.isWhitespace).reverse⟩

/-- Python `str.lower()`. -/
def pyLower (s : String) : String := ⟨s.data.map Char.toLower⟩

/-- Python `str.upper()`. -/
def pyUpper (s : String) : String := ⟨s.data.map Char.toUpper⟩

/-- Python `str.replace(" ", "")`: drop every space character. -/
def removeSpaces (s : String) : String := ⟨s.data.filter (fun c => c ≠ ' ')⟩

/-- `normalize_key` from `src/utils/budget_parser.py`:
`str(key).strip().lower().replace(" ", "")`. -/
def normalize_key (s : String) : String := removeSpaces (pyLower (pyStrip s))

/-- Split a character list on every occurrence of the literal delimiter
`***`, scanning left to right (the semantics of Python
`str.split("***")`). -/
def splitStars : List Char → List (List Char)
  | '*' :: '*' :: '*' :: rest => [] :: splitStars rest
  | c :: rest =>
    match splitStars rest with
    | h :: t => (c :: h) :: t
    | [] => [[c]]
  | [] => [[]]

/-- Re-join split parts with the `***` delimiter (used to model Python
`str.split("***", 1)`, which keeps everything after the first delimiter
as a single part). -/
def joinStars : List (List Char) → List Char
  | [] => []
  | [x] => x
  | x :: xs => x ++ '*' :: '*' :: '*' :: joinStars xs

/-- Python `s.split("***", 1)` as pandas `str.split(..., n=1, expand=True)`
sees one row: the first part, and (when the delimiter occurs) the rest
re-joined; `none` in the second component is the `NaN` a row without the
delimiter receives when other rows do split. -/
def splitN1 (s : String) : String × Option String :=
  match splitStars s.data with
  | [] => (s, none)
  | [only] => (⟨only⟩, none)
  | first :: rest => (⟨first⟩, some ⟨joinStars rest⟩)

/-- Character-level worker for Python `str.title()`: the Boolean argument
records whether the previous character was alphabetic. -/
def titleChars : Bool → List Char → List Char
  | _, [] => []
  | prevAlpha, c :: rest =>
    (if prevAlpha then c.toLower else c.toUpper) :: titleChars c.isAlpha rest

/-- Python `str.title()`. -/
def pyTitle (s : String) : String := ⟨titleChars false s.data⟩

/-! ## Cells and numeric coercion -/

/-- A pandas cell as far as numeric coercion is concerned: either a value
that `pd.to_numeric` accepts (embedded as its rational value) or one it
cannot parse (kept as text; `NaN` cells are represented by text cells as
well, since both coerce the same way). -/
inductive Cell where
  | num (q : ℚ)
  | text (s : String)
deriving DecidableEq

/-- `pd.to_numeric(x, errors="coerce").fillna(0)`. -/
def toNumeric0 : Cell → ℚ
  | .num q => q
  | .text _ => 0

/-- `pd.to_numeric(x, errors="coerce")` without `fillna`: `none` is `NaN`. -/
def toNumericOpt : Cell → Option ℚ
  | .num q => some q
  | .text _ => none

/-! ## Sorting keys (pandas `groupby`/`pivot_table` sort their keys) -/

/-- Lexicographic order on (category, sub-category) string pairs, via the
code-point order on the underlying character lists (Python's string
order). -/
def pairLe (p q : String × String) : Prop :=
  [p.1.data, p.2.data] ≤ [q.1.data, q.2.data]

instance : DecidableRel pairLe := fun p q => by unfold pairLe; infer_instance

instance : IsTotal (String × String) pairLe := ⟨fun _ _ => le_total _ _⟩

instance : IsTrans (String × String) pairLe := ⟨fun _ _ _ h1 h2 => le_trans h1 h2⟩

instance : IsAntisymm (String × String) pairLe := by
  constructor
  intro p q h1 h2
  have h3 := le_antisymm h1 h2
  obtain ⟨p1, p2⟩ := p
  obtain ⟨q1, q2⟩ := q
  simp only [List.cons.injEq, and_true] at h3
  cases p1; cases p2; cases q1; cases q2
  simp_all

/-- Code-point order on strings. -/
def strLe (s t : String) : Prop := s.data ≤ t.data

instance : DecidableRel strLe := fun s t => by unfold strLe; infer_instance

/-- Lexicographic order on the four-component `groupby` key of the
expense aggregation. -/
def quadLe (p q : String × String × String × String) : Prop :=
  [p.1.data, p.2.1.data, p.2.2.1.data, p.2.2.2.data] ≤
    [q.1.data, q.2.1.data, q.2.2.1.data, q.2.2.2.data]

instance : DecidableRel quadLe := fun p q => by unfold quadLe; infer_instance

/-! ## Structured parse errors

The Python sources raise `ValueError` with a message naming the missing
columns / offending value; the embedding keeps the named data in a
structured error. -/

inductive ParseErr where
  | missingColumns (missing : List String)
  | unknownBudgetType (value : String)
  | malformedComposite
deriving DecidableEq

/-! ## Budget reshaping: wide → long (`src/utils/budget_parser.py`) -/

/-- The month column names, calendar order (`MONTH_COLUMNS`). -/
def monthName : Nat → String
  | 0 => "January"
  | 1 => "February"
  | 2 => "March"
  | 3 => "April"
  | 4 => "May"
  | 5 => "June"
  | 6 => "July"
  | 7 => "August"
  | 8 => "September"
  | 9 => "October"
  | 10 => "November"
  | 11 => "December"
  | _ => ""

/-- One row of the uploaded wide budget workbook.  `months` lists the
twelve month cells in calendar order (the required columns are validated
separately from the header). -/
structure WideRow where
  cat : String
  sub : String
  months : List Cell
  total : Cell
deriving DecidableEq

/-- One row of the normalized long-format budget
(`_load_budget_from_drive`'s output schema). -/
structure LongRow where
  category_key : String
  category_display : String
  subcategory_key : String
  subcategory_display : String
  month : String
  budget_amount : ℚ
  annual_total : ℚ
deriving DecidableEq

/-- The required columns of the budget workbook:
`{"Category", "Subcategory", "Total"} | set(MONTH_COLUMNS)`. -/
def budgetRequiredColumns : List String :=
  ["Category", "Subcategory", "Total"] ++ (List.range 12).map monthName

/-- One melted long row: wide row `r` at month index `i`
(`category_display = Category.strip()`, key = `normalize_key`,
`annual_total = to_numeric(Total).fillna(0)`, month name lowercased,
amounts coerced with `fillna(0)`). -/
def mkLong (i : Nat) (r : WideRow) : LongRow :=
  { category_key := normalize_key (pyStrip r.cat)
    category_display := pyStrip r.cat
    subcategory_key := normalize_key (pyStrip r.sub)
    subcategory_display := pyStrip r.sub
    month := pyLower (monthName i)
    budget_amount := toNumeric0 (r.months.getD i (.text ""))
    annual_total := toNumeric0 r.total }

/-- `df.melt(value_vars=MONTH_COLUMNS)`: pandas stacks the value
columns one after the other (column-major), so all January rows come
first, then all February rows, and so on. -/
def meltRows (rows : List WideRow) : List LongRow :=
  (List.range 12).flatMap fun i => rows.map (mkLong i)

/-- `_load_budget_from_drive` without the Drive download: validate the
required columns (the set difference is fatal, naming the missing
columns), then normalize and melt. -/
def loadBudget (cols : List String) (rows : List WideRow) :
    Except ParseErr (List LongRow) :=
  let missing := budgetRequiredColumns.filter (fun c => !(cols.contains c))
  if missing ≠ [] then .error (.missingColumns missing)
  else .ok (meltRows rows)

/-! ## Budget reshaping: long → wide (`src/utils/budget_adapter.py`) -/

/-- One row of the wide table produced by
`adapt_budget_long_to_classification`, with columns in the canonical
order `Category, Sub-Category, January … December, Total`. -/
structure WideOutRow where
  cat : String
  sub : String
  months : List ℚ
  total : ℚ
deriving DecidableEq

/-- Display (category, sub-category) pair of a long row. -/
def longPair (r : LongRow) : String × String :=
  (r.category_display, r.subcategory_display)

/-- Display (category, sub-category) pair of a wide row. -/
def widePair (r : WideRow) : String × String :=
  (r.cat, r.sub)

/-- `adapt_budget_long_to_classification`:
`pivot_table(index=[category_display, subcategory_display],
columns=Month, values=budget_amount, aggfunc="sum")` (pandas sorts the
index), missing month columns filled with 0, annual totals attached by
`groupby(...).first()`, columns reordered canonically.
A `(pair, month)` group that exists but is empty would be `NaN` in
pandas; it is summed to 0 here, which coincides on every input produced
by `meltRows` (where every pair carries all twelve months). -/
def adaptBudgetLongToClassification (long : List LongRow) : List WideOutRow :=
  let pairs := List.insertionSort pairLe ((long.map longPair).dedup)
  pairs.map fun p =>
    { cat := p.1
      sub := p.2
      months := (List.range 12).map fun i =>
        (((long.filter fun r =>
            longPair r = p ∧ pyTitle r.month = monthName i)).map
              (fun r => r.budget_amount)).sum
      total :=
        (((long.filter fun r => longPair r = p)).map
          (fun r => r.annual_total)).headD 0 }

/-! ## Expense parsing (`src/utils/expense_parser.py`) -/

/-- One raw row of the expense ledger CSV. -/
structure LedgerRow where
  company : String
  vendor : String
  classification : String
  subCategory : String
  amount : Cell
  invoiceDate : String
  status : String
  approver1 : String
  approver2 : String
  approver3 : String
  currency : String
  budgetYear : Int
deriving DecidableEq

/-- One row of `parseExpense`'s aggregated output. -/
structure ExpenseRow where
  category_key : String
  subcategory_key : String
  category_display : String
  subcategory_display : String
  amount_spent : ℚ
deriving DecidableEq

/-- The required expense CSV columns. -/
def expenseRequiredColumns : List String :=
  ["Company", "Vendor", "Classification", "Sub-Category", "Amount",
   "Invoice Date", "Status", "Approver-1 approval", "Approver-2 approval",
   "Approver-3 approval", "Currency", "Budget Year"]

/-- The classification value the budget-type token selects:
`budget(opex) ↦ OPEX`, `budget(capex) ↦ CAPEX`, anything else is the
fatal unknown-budget-type configuration error. -/
def classificationTarget (btLower : String) : Option String :=
  if btLower = "budget(opex)" then some "OPEX"
  else if btLower = "budget(capex)" then some "CAPEX"
  else none

/-- The hard business filters of `parseExpense`, in source order:
company, budget year, status not `void` (case-insensitive), no approver
`declined` (case-insensitive), classification equal to the requested
target (upper-cased comparison). -/
def applyFilters (rows : List LedgerRow) (budget_year : Int) (tgt : String) :
    List LedgerRow :=
  (((((((rows.filter (fun r => r.company == "Musson")).filter
    (fun r => r.budgetYear == budget_year)).filter
    (fun r => !(pyLower r.status == "void"))).filter
    (fun r => !(pyLower r.approver1 == "declined"))).filter
    (fun r => !(pyLower r.approver2 == "declined"))).filter
    (fun r => !(pyLower r.approver3 == "declined"))).filter
    (fun r => pyUpper r.classification == tgt))

/-- A surviving ledger row with the parsed category/sub-category columns
(`category_display`, `subcategory_display`, `category_key`,
`subcategory_key`).  `subD = none` is the `NaN` a row receives when its
composite field has no `***` (its `subcategory_key` is then
`normalize_key` of Python's `str(nan)`). -/
structure WorkRow where
  row : LedgerRow
  catD : String
  subD : Option String
  catKey : String
  subKey : String
deriving DecidableEq

/-- Parse the composite "Category *** Sub-Category" field of one row
(the column-wise `str.split` + `str.strip` + `normalize_key` steps). -/
def toWork (r : LedgerRow) : WorkRow :=
  let s := splitN1 r.subCategory
  { row := r
    catD := pyStrip s.1
    subD := s.2.map pyStrip
    catKey := normalize_key (pyStrip s.1)
    subKey := normalize_key ((s.2.map pyStrip).getD "nan") }

/-- Modelled from the spec: `convert_row_amount_to_usd` is defined in
`src/utils/fx_helper.py`, which is not among the provided sources; per
§4.2 the conversion fails (the row's `amount_spent` becomes `NaN`) when
the currency code is absent from the rate table or the amount is not
numeric, and otherwise multiplies the amount by the table's USD factor
(the multiplicative quoting convention, one of the two the spec
allows). -/
def convert_row_amount_to_usd (amount : Cell) (currency : String)
    (rates : List (String × ℚ)) : Option ℚ :=
  match toNumericOpt amount, rates.find? (fun p => p.1 == currency) with
  | some q, some p => some (q * p.2)
  | _, _ => none

/-- Conversion step: attach `amount_spent` to every row it succeeds on
and drop the rows it fails on (`df = df[pd.notna(df["amount_spent"])]`). -/
def convertedRows (l : List LedgerRow) (rates : List (String × ℚ)) :
    List (WorkRow × ℚ) :=
  (l.map toWork).filterMap fun w =>
    (convert_row_amount_to_usd w.row.amount w.row.currency rates).map (w, ·)

/-- The four-component `groupby` key of the aggregation step:
`(category_key, subcategory_key, category_display, subcategory_display)`. -/
def workQuad (w : WorkRow) : String × String × String × String :=
  (w.catKey, w.subKey, w.catD, w.subD.getD "")

/-- The groupby key of an aggregated output row. -/
def quadOf (e : ExpenseRow) : String × String × String × String :=
  (e.category_key, e.subcategory_key, e.category_display, e.subcategory_display)

/-- Rows that take part in the aggregation: converted rows whose
sub-category display is not `NaN` (pandas `groupby` drops groups with a
null key). -/
def goodRows (cvt : List (WorkRow × ℚ)) : List (WorkRow × ℚ) :=
  cvt.filter (fun p => p.1.subD ≠ none)

/-- The aggregation step: one row per four-component key (pandas sorts
the group keys), summing `amount_spent` within each group. -/
def aggregateConverted (cvt : List (WorkRow × ℚ)) : List ExpenseRow :=
  let good := goodRows cvt
  let quads := List.insertionSort quadLe ((good.map fun p => workQuad p.1).dedup)
  quads.map fun q =>
    { category_key := q.1
      subcategory_key := q.2.1
      category_display := q.2.2.1
      subcategory_display := q.2.2.2
      amount_spent := ((good.filter fun p => workQuad p.1 = q).map
        (fun p => p.2)).sum }

/-- `parseExpense` without the Drive download and cache key: validate
columns, filter, check the budget-type token, return an empty
well-formed result when nothing survives, parse the composite column
(`expand` produces a second column only when at least one row contains
the delimiter — otherwise the shape check fails the batch), convert to
USD dropping failed rows, aggregate. -/
def parseExpense (cols : List String) (rows : List LedgerRow)
    (budget_year : Int) (budget_type : String)
    (rates : List (String × ℚ)) : Except ParseErr (List ExpenseRow) :=
  if expenseRequiredColumns.filter (fun c => !(cols.contains c)) ≠ [] then
    .error (.missingColumns
      (expenseRequiredColumns.filter (fun c => !(cols.contains c))))
  else
    match classificationTarget (pyLower budget_type) with
    | none => .error (.unknownBudgetType (pyLower budget_type))
    | some tgt =>
      if applyFilters rows budget_year tgt = [] then .ok []
      else if (applyFilters rows budget_year tgt).all
          (fun r => (splitStars r.subCategory.data).length == 1) then
        .error .malformedComposite
      else
        if convertedRows (applyFilters rows budget_year tgt) rates = [] then
          .ok []
        else
          .ok (aggregateConverted
            (convertedRows (applyFilters rows budget_year tgt) rates))

/-- The surviving ledger rows of a `parseExpense` run: the filtered frame
when the budget-type token is recognized (the error path has no
survivors). -/
def survivorsOf (rows : List LedgerRow) (budget_year : Int)
    (budget_type : String) : List LedgerRow :=
  match classificationTarget (pyLower budget_type) with
  | some tgt => applyFilters rows budget_year tgt
  | none => []

/-- Whether an `Except` value is a success. -/
def exceptOk {ε α : Type} : Except ε α → Bool
  | .ok _ => true
  | .error _ => false

/-! ## Reconciliation report (`src/components/dashboard.py`) -/

/-- One row of `df_budget` as the report dashboard consumes it:
`Category`, `Sub-Category`, `Total` (the `Total` cell is coerced by the
dashboard itself). -/
structure BudgetRow where
  cat : String
  sub : String
  total : Cell
deriving DecidableEq

/-- `budget_base`: the budget restricted to the three columns, with
`Total` renamed to `Amount Budgeted` and numerically coerced. -/
structure BaseRow where
  cat : String
  sub : String
  budgeted : ℚ
deriving DecidableEq

def budgetBase (bs : List BudgetRow) : List BaseRow :=
  bs.map fun b => { cat := b.cat, sub := b.sub, budgeted := toNumeric0 b.total }

/-- `budget_keys = set(zip(budget_base["Category"], budget_base["Sub-Category"]))`
(membership in the list models membership in the Python set). -/
def budgetKeys (bs : List BudgetRow) : List (String × String) :=
  (budgetBase bs).map fun b => (b.cat, b.sub)

/-- A row of the dashboard's expense aggregation (`expense_agg`):
a display pair and its summed spend. -/
structure DisplayAgg where
  cat : String
  sub : String
  amt : ℚ
deriving DecidableEq

/-- `df_expense.groupby(["category_display", "subcategory_display"]).sum()`:
one row per display pair (pandas sorts the group keys), summing
`amount_spent`. -/
def expense_agg (es : List ExpenseRow) : List DisplayAgg :=
  let pairs := List.insertionSort pairLe
    ((es.map fun e => (e.category_display, e.subcategory_display)).dedup)
  pairs.map fun p =>
    { cat := p.1
      sub := p.2
      amt := ((es.filter fun e =>
          (e.category_display, e.subcategory_display) = p).map
          (fun e => e.amount_spent)).sum }

/-- `is_oob`: the aggregated display pair is absent from `budget_keys`. -/
def isOob (bs : List BudgetRow) (a : DisplayAgg) : Bool :=
  !((budgetKeys bs).contains (a.cat, a.sub))

/-- The in-budget partition of `expense_agg`. -/
def inBudgetExpenses (bs : List BudgetRow) (agg : List DisplayAgg) :
    List DisplayAgg :=
  agg.filter fun a => !(isOob bs a)

/-- The out-of-budget partition of `expense_agg`. -/
def oobExpenses (bs : List BudgetRow) (agg : List DisplayAgg) :
    List DisplayAgg :=
  agg.filter fun a => isOob bs a

/-- A reconciliation row before the `Status` column is added. -/
structure PreRow where
  cat : String
  sub : String
  budgeted : ℚ
  spent : ℚ
  variance : ℚ
deriving DecidableEq

/-- Step 4: left-merge the budget base with the in-budget expenses on the
display pair, `fillna(0)` on the spend, `Variance = Budgeted − Spent`.
(The aggregated pairs are pairwise distinct, so the first match is the
only one.) -/
def mergedSpent (bs : List BudgetRow) (agg : List DisplayAgg) (b : BaseRow) : ℚ :=
  (((inBudgetExpenses bs agg).find? fun a =>
    (a.cat, a.sub) == (b.cat, b.sub)).map (fun a => a.amt)).getD 0

def mergedRows (bs : List BudgetRow) (agg : List DisplayAgg) : List PreRow :=
  (budgetBase bs).map fun b =>
    { cat := b.cat, sub := b.sub, budgeted := b.budgeted
      spent := mergedSpent bs agg b
      variance := b.budgeted - mergedSpent bs agg b }

/-- Step 5: the synthesized out-of-budget rows (`Amount Budgeted = 0`,
`Variance = −Spent`, `Category` forced to the sentinel `"OOB"`). -/
def oobRows (bs : List BudgetRow) (agg : List DisplayAgg) : List PreRow :=
  (oobExpenses bs agg).map fun a =>
    { cat := "OOB", sub := a.sub, budgeted := 0, spent := a.amt
      variance := -a.amt }

/-- A row of the final reconciliation report. -/
structure ReconRow where
  cat : String
  sub : String
  budgeted : ℚ
  spent : ℚ
  variance : ℚ
  status : String
deriving DecidableEq

/-- `get_status` from `render_report_dashboard`: OOB rows first, then the
zero-budget split, then the usage thresholds (0.7 and 1.0, upper bounds
inclusive). -/
def get_status (cat : String) (budget spent : ℚ) : String :=
  if cat = "OOB" then "Out of Budget"
  else if budget = 0 then (if spent > 0 then "Overspent" else "Within Budget")
  else
    let usage := spent / budget
    if usage ≤ 7/10 then "Within Budget"
    else if usage ≤ 1 then "Warning - Approaching Limit"
    else "Overspent"

/-- Attach the `Status` column to a pre-row. -/
def withStatus (p : PreRow) : ReconRow :=
  { cat := p.cat, sub := p.sub, budgeted := p.budgeted, spent := p.spent
    variance := p.variance, status := get_status p.cat p.budgeted p.spent }

/-- Step 6–7: `final_df`, the concatenation of merged in-budget rows and
synthesized OOB rows, with `Status` computed for every row. -/
def finalDf (bs : List BudgetRow) (agg : List DisplayAgg) : List ReconRow :=
  (mergedRows bs agg ++ oobRows bs agg).map withStatus

/-- Step 8: category rollups — `groupby("Category")` (sorted keys),
summing the three amount columns and computing `get_status` on the sums,
with the `Sub-Category` marker `"TOTAL"`. -/
def categoryTotals (rows : List ReconRow) : List ReconRow :=
  let cats := List.insertionSort strLe ((rows.map fun r => r.cat).dedup)
  cats.map fun c =>
    let grp := rows.filter fun r => r.cat == c
    let b := (grp.map fun r => r.budgeted).sum
    let s := (grp.map fun r => r.spent).sum
    let v := (grp.map fun r => r.variance).sum
    { cat := c, sub := "TOTAL", budgeted := b, spent := s, variance := v
      status := get_status c b s }

/-- Order on report rows by sub-category, for the within-category sort
(`sort_values("Sub-Category")`). -/
def bySub (r r' : ReconRow) : Prop := r.sub.data ≤ r'.sub.data

instance : DecidableRel bySub := fun r r' => by unfold bySub; infer_instance

/-- Step 9: for every category in sorted order, emit its rollup row
followed by its line-item rows sorted by sub-category. -/
def finalWithTotals (rows : List ReconRow) : List ReconRow :=
  let cats := List.insertionSort strLe ((rows.map fun r => r.cat).dedup)
  let totals := categoryTotals rows
  cats.flatMap fun c =>
    (match totals.find? (fun t => t.cat == c) with
     | some t => [t]
     | none => []) ++
    List.insertionSort bySub (rows.filter fun r => r.cat == c)

/-- The full reconciliation report of `render_report_dashboard`
(steps 1–9). -/
def reconcile (bs : List BudgetRow) (es : List ExpenseRow) : List ReconRow :=
  finalWithTotals (finalDf bs (expense_agg es))

/-! ## Classification dashboard (`src/components/classification_dashboard.py`) -/

/-- The eight status tiles, fixed order (`status_options`). -/
def statusOptions : List String :=
  ["Wishlist", "To be confirmed", "Spent", "To be spent",
   "To be spent (Projects)", "To be spent (Recurring)",
   "Will not be spent", "Out of Budget"]

/-- The user-assignable subset (`editor_options`). -/
def editorOptions : List String :=
  ["Wishlist", "To be confirmed", "To be spent",
   "To be spent (Projects)", "To be spent (Recurring)", "Will not be spent"]

/-- One row of the saved classification state as the dashboard receives
it from `load_budget_state_monthly`.  `alloc` is the `Allocated Amount`
cell (meaningful only when the frame has that column); `statusCat` is
`none` for a null `Status Category` (pandas `groupby` drops those rows). -/
structure StateRow where
  cat : String
  sub : String
  month : String
  amount : ℚ
  alloc : Cell
  statusCat : Option String
deriving DecidableEq

/-- The saved-state frame: its rows plus whether the `Allocated Amount`
column is present (`load_budget_state_monthly` in `src/utils/db.py`
never produces it, but the dashboard checks for it). -/
structure SavedState where
  hasAllocCol : Bool
  rows : List StateRow
deriving DecidableEq

/-- The value the summary sums for one entry: `Allocated Amount`
(coerced, as line 56 coerces the column in place) when the column is
present, else `Amount`. -/
def amountColVal (st : SavedState) (r : StateRow) : ℚ :=
  if st.hasAllocCol then toNumeric0 r.alloc else r.amount

/-- `rows_summary` before the overrides: all zeros when the saved state
is empty, else per-status sums of the amount column, reindexed over
`status_options` with missing statuses filled with 0. -/
def summaryTotals (st : SavedState) : List (String × ℚ) :=
  if st.rows.isEmpty then statusOptions.map fun s => (s, 0)
  else statusOptions.map fun s =>
    (s, ((st.rows.filter fun r => r.statusCat == some s).map
      (amountColVal st)).sum)

/-- One `rows_summary.loc[Status Category == name, "Total"] = v`
assignment. -/
def overrideTile (name : String) (v : ℚ) (l : List (String × ℚ)) :
    List (String × ℚ) :=
  l.map fun p => if p.1 = name then (p.1, v) else p

/-- `spent_usd = df_expense["amount_spent"].sum()`. -/
def spentTotal (es : List ExpenseRow) : ℚ :=
  (es.map fun e => e.amount_spent).sum

/-- The display pairs of `df_budget` (`valid_budget_keys`). -/
def budgetPairs (bs : List BudgetRow) : List (String × String) :=
  bs.map fun b => (b.cat, b.sub)

/-- `out_of_budget_total`: the spend of the expense rows whose display
pair is absent from the budget's display pairs. -/
def oobSpendTotal (bs : List BudgetRow) (es : List ExpenseRow) : ℚ :=
  ((es.filter fun e =>
    !((budgetPairs bs).contains (e.category_display, e.subcategory_display))).map
    (fun e => e.amount_spent)).sum

/-- The dashboard summary tiles: per-status sums, then the `"Spent"` tile
overridden with the true ledger spend and the `"Out of Budget"` tile
overridden with the true out-of-budget total. -/
def dashboardSummary (bs : List BudgetRow) (es : List ExpenseRow)
    (st : SavedState) : List (String × ℚ) :=
  overrideTile "Out of Budget" (oobSpendTotal bs es)
    (overrideTile "Spent" (spentTotal es) (summaryTotals st))

/-! ## Allocation adding (classification dashboard, Add New Allocation) -/

/-- One line of `base_df` (`Category`, `Sub-Category`,
`Total Amount`); the total is numeric because the adapter supplies
`annual_total`. -/
structure ClassLine where
  cat : String
  sub : String
  total : ℚ
deriving DecidableEq

/-- One allocation (a row of `allocations_df` / a pending allocation). -/
structure Alloc where
  cat : String
  sub : String
  totalAmount : ℚ
  alloc : ℚ
  status : String
deriving DecidableEq

/-- `line_item_total`: the first matching base line's total, 0 when the
line does not exist. -/
def lineTotal (base : List ClassLine) (c s : String) : ℚ :=
  ((base.filter fun b => b.cat == c && b.sub == s).map
    (fun b => b.total)).headD 0

/-- The summed allocated amount of one line inside an allocation list. -/
def sumAllocFor (l : List Alloc) (c s : String) : ℚ :=
  ((l.filter fun a => a.cat == c && a.sub == s).map (fun a => a.alloc)).sum

/-- The Add-Allocation control: `available = line total − (saved + pending
allocations of the line)`; the number input is clamped to
`[0, max(available, 0)]`, and the button appends the pending allocation
only for a positive amount and a chosen status.  A request outside the
clamp cannot be submitted, which this embedding renders as leaving the
pending list unchanged. -/
def addAllocation (base : List ClassLine) (db pending : List Alloc)
    (c s : String) (requested : ℚ) (status : String) : List Alloc :=
  if 0 < requested ∧
      requested ≤ (if lineTotal base c s -
            (sumAllocFor db c s + sumAllocFor pending c s) > 0 then
          lineTotal base c s - (sumAllocFor db c s + sumAllocFor pending c s)
        else 0) ∧
      status ≠ "" then
    pending ++ [{ cat := c, sub := s, totalAmount := lineTotal base c s
                  alloc := requested, status := status }]
  else pending

/-- One Add-Allocation request. -/
structure AddReq where
  cat : String
  sub : String
  requested : ℚ
  status : String

/-- A sequence of Add-Allocation requests applied to the pending list. -/
def applyAdds (base : List ClassLine) (db : List Alloc)
    (pending : List Alloc) (reqs : List AddReq) : List Alloc :=
  reqs.foldl (fun p r => addAllocation base db p r.cat r.sub r.requested r.status)
    pending

/-! ## Save path (classification dashboard save button + `src/utils/db.py`) -/

/-- A Python value as it reaches the persistence layer. -/
inductive PyVal where
  | num (q : ℚ)
  | str (s : String)
  | null
deriving DecidableEq

/-- A pandas cell as a Python value (`None` replacement for `NaN` is done
separately on the merged frame). -/
def cellToPyVal : Cell → PyVal
  | .num q => .num q
  | .text s => .str s

/-- A row dict (`df.to_dict(orient="records")` element): an association
list from column name to value. -/
abbrev DictRow : Type := List (String × PyVal)

/-- Python `r[k]` on a row dict: `KeyError k` when the column is absent. -/
def dictGet (d : DictRow) (k : String) : Except String PyVal :=
  match d.find? (fun p => p.1 == k) with
  | some p => .ok p.2
  | none => .error k

/-- One persisted `budget_state` row. -/
structure DbRow where
  file : String
  category : PyVal
  subcategory : PyVal
  month : PyVal
  amount : PyVal
  statusCategory : PyVal
  updatedBy : String
deriving DecidableEq

/-- The persisted `budget_state` table. -/
abbrev Db : Type := List DbRow

/-- `DELETE FROM budget_state WHERE file_name = %s`. -/
def deleteFile (db : Db) (file : String) : Db :=
  db.filter fun r => !(r.file == file)

/-- The `ON DUPLICATE KEY UPDATE` upsert; the schema's unique key is not
in the sources, and is taken as `(file_name, category, subcategory,
month)` — the columns the statement leaves unchanged on update. -/
def upsert (db : Db) (r : DbRow) : Db :=
  if db.any (fun x => x.file == r.file && x.category == r.category &&
      x.subcategory == r.subcategory && x.month == r.month) then
    db.map fun x =>
      if x.file == r.file && x.category == r.category &&
          x.subcategory == r.subcategory && x.month == r.month then
        { x with amount := r.amount, statusCategory := r.statusCategory
                 updatedBy := r.updatedBy }
      else x
  else db ++ [r]

/-- One iteration of `save_budget_state_monthly`'s loop: look the row's
columns up in the order the SQL parameters are built (a missing column is
a `KeyError` carrying the key) and upsert. -/
def insertStateRow (file user : String) (d : DictRow) (db : Db) :
    Except String Db := do
  let cat ← dictGet d "Category"
  let sub ← dictGet d "Sub-Category"
  let mon ← dictGet d "Month"
  let amt ← dictGet d "Amount"
  let stc ← dictGet d "Status Category"
  pure (upsert db { file := file, category := cat, subcategory := sub
                    month := mon, amount := amt, statusCategory := stc
                    updatedBy := user })

/-- `save_budget_state_monthly` from `src/utils/db.py`: row-by-row
upserts; the first missing column aborts with that `KeyError` (the
connection is autocommit, so rows already processed stay). -/
def save_budget_state_monthly (file : String) (rows : List DictRow)
    (user : String) (db : Db) : Except String Db :=
  rows.foldlM (fun acc d => insertStateRow file user d acc) db

/-- One row of the edited allocations table (`edited_allocations`):
`alloc = none` and `status = none` are `NaN` cells. -/
structure EditedRow where
  cat : String
  sub : String
  totalAmount : ℚ
  alloc : Option Cell
  status : Option String
deriving DecidableEq

/-- The save-time per-row validation: `Status Category` not null and not
empty, `Allocated Amount` not null and numerically positive
(`pd.to_numeric(..., errors="coerce") > 0`; a non-numeric cell coerces
to `NaN`, which fails the comparison). -/
def validRow (r : EditedRow) : Bool :=
  r.status ≠ none && r.status ≠ some "" && r.alloc ≠ none &&
    (match r.alloc with
     | some (.num q) => decide (q > 0)
     | _ => false)

/-- Build `final_df.to_dict(orient="records")`: the validated rows merged
with the budget's `Total` (renamed `Amount`; an unmatched line yields
`NaN`, turned into `None` by the `where(pd.notnull, None)` step), with
exactly the five selected columns — no `Month` column.  (Budget display
pairs are taken as unique, as the adapter produces them, so the left
merge attaches the first match.) -/
def buildFinalRows (budget : List BudgetRow) (valid : List EditedRow) :
    List DictRow :=
  valid.map fun r =>
    let amount := match budget.find? (fun b => b.cat == r.cat && b.sub == r.sub) with
      | some b => cellToPyVal b.total
      | none => PyVal.null
    [("Category", .str r.cat), ("Sub-Category", .str r.sub), ("Amount", amount),
     ("Allocated Amount", match r.alloc with
       | some c => cellToPyVal c
       | none => PyVal.null),
     ("Status Category", match r.status with
       | some s => .str s
       | none => PyVal.null)]

/-- The outcome of pressing the save button. -/
inductive SaveOutcome where
  | cleared (db : Db)
  | refusedNothingValid (db : Db)
  | saved (db : Db)
  | raisedKeyError (key : String) (db : Db)
deriving DecidableEq

/-- The save-button handler: an empty editor clears the file's entries; a
non-empty editor is filtered to the valid rows — none valid refuses the
save leaving the store untouched; otherwise all entries for the file are
deleted (autocommit) and `save_budget_state_monthly` is called on the
final rows, whose uncaught `KeyError` leaves the store as the delete left
it. -/
def saveAllocations (file : String) (edited : List EditedRow)
    (budget : List BudgetRow) (user : String) (db0 : Db) : SaveOutcome :=
  if edited = [] then .cleared (deleteFile db0 file)
  else
    if edited.filter validRow = [] then .refusedNothingValid db0
    else
      match save_budget_state_monthly file
          (buildFinalRows budget (edited.filter validRow)) user
          (deleteFile db0 file) with
      | .ok db2 => .saved db2
      | .error k => .raisedKeyError k (deleteFile db0 file)

/-! ## Spec-side definitions (for refinement claims) -/

/-- The status rule as the specification states it for non-OOB rows
(§4.5): zero budget splits on positive spend; otherwise the usage
thresholds 0.70 and 1.00, upper bounds inclusive. -/
def statusSpec (budget spent : ℚ) : String :=
  if budget = 0 then (if spent > 0 then "Overspent" else "Within Budget")
  else if spent / budget ≤ 7/10 then "Within Budget"
  else if spent / budget ≤ 1 then "Warning - Approaching Limit"
  else "Overspent"

/-- The dashboard summary as the specification states it (§4.6): for each
of the eight statuses the per-status sum of the persisted amounts, with
the `"Spent"` and `"Out of Budget"` tiles replaced by the ledger truths. -/
def summarySpec (bs : List BudgetRow) (es : List ExpenseRow)
    (st : SavedState) : List (String × ℚ) :=
  statusOptions.map fun s =>
    (s, if s = "Spent" then spentTotal es
        else if s = "Out of Budget" then oobSpendTotal bs es
        else ((st.rows.filter fun r => r.statusCat == some s).map
          (amountColVal st)).sum)

/-- The normalized key pairs of the budget (the key set the specification
says decides the in-budget/out-of-budget partition). -/
def normBudgetKeys (bs : List BudgetRow) : List (String × String) :=
  (budgetKeys bs).map fun p => (normalize_key p.1, normalize_key p.2)

/-! ## Theorems -/

/-- Membership is invariant under `insertionSort`. -/
theorem mem_insertionSort {α} (r : α → α → Prop) [DecidableRel r] {a : α}
    {l : List α} : a ∈ List.insertionSort r l ↔ a ∈ l :=
  (List.perm_insertionSort r l).mem_iff

/-- Every row of `finalDf` carries the status computed from its own
fields. -/
theorem finalDf_status {bs agg} {r : ReconRow} (h : r ∈ finalDf bs agg) :
    r.status = get_status r.cat r.budgeted r.spent := by
  unfold finalDf at h
  obtain ⟨p, _, rfl⟩ := List.mem_map.mp h
  rfl

/-- Every rollup row has the `"TOTAL"` marker and carries the status
computed from its own fields. -/
theorem categoryTotals_shape {rows} {r : ReconRow} (h : r ∈ categoryTotals rows) :
    r.sub = "TOTAL" ∧ r.status = get_status r.cat r.budgeted r.spent := by
  unfold categoryTotals at h
  obtain ⟨c, _, rfl⟩ := List.mem_map.mp h
  exact ⟨rfl, rfl⟩

/-- Every row of the final report is either a rollup row or a `final_df`
row. -/
theorem finalWithTotals_mem_split {rows} {r : ReconRow}
    (h : r ∈ finalWithTotals rows) :
    r ∈ categoryTotals rows ∨ r ∈ rows := by
  unfold finalWithTotals at h
  obtain ⟨c, _, hr⟩ := List.mem_flatMap.mp h
  rcases List.mem_append.mp hr with h1 | h2
  · left
    cases hfind : (categoryTotals rows).find? (fun t => t.cat == c) with
    | none => rw [hfind] at h1; cases h1
    | some t =>
      rw [hfind] at h1
      rcases List.mem_singleton.mp h1 with rfl
      exact List.mem_of_find?_eq_some hfind
  · right
    exact (List.mem_filter.mp ((mem_insertionSort bySub).mp h2)).1

/-- Every row of `final_df` appears in the final report. -/
theorem mem_finalWithTotals_of_mem {rows} {r : ReconRow} (h : r ∈ rows) :
    r ∈ finalWithTotals rows := by
  unfold finalWithTotals
  refine List.mem_flatMap.mpr ⟨r.cat, ?_, ?_⟩
  · exact (mem_insertionSort strLe).mpr (List.mem_dedup.mpr (List.mem_map_of_mem _ h))
  · refine List.mem_append.mpr (.inr ?_)
    exact (mem_insertionSort bySub).mpr
      (List.mem_filter.mpr ⟨h, by simp⟩)

/-- Every row of the reconciliation report carries the status computed by
`get_status` from its own fields. -/
theorem reconcile_status {bs es} {r : ReconRow} (h : r ∈ reconcile bs es) :
    r.status = get_status r.cat r.budgeted r.spent := by
  rcases finalWithTotals_mem_split h with h1 | h2
  · exact (categoryTotals_shape h1).2
  · exact finalDf_status h2

/-- On non-OOB categories, `get_status` is the specification's status
rule. -/
theorem get_status_eq_statusSpec {cat : String} (h : cat ≠ "OOB")
    (budget spent : ℚ) : get_status cat budget spent = statusSpec budget spent := by
  unfold get_status statusSpec
  rw [if_neg h]

/-- Claim C2: every row of the reconciliation output whose category is
not the OOB sentinel — line items and category rollups alike — carries
exactly the specification's status: for zero budget, `"Overspent"` iff
spend is positive, else `"Within Budget"`; otherwise by usage with the
0.70 and 1.00 thresholds, both upper bounds inclusive. -/
theorem recon_status_matches_spec (bs : List BudgetRow) (es : List ExpenseRow)
    (r : ReconRow) (hr : r ∈ reconcile bs es) (hcat : r.cat ≠ "OOB") :
    r.status = statusSpec r.budgeted r.spent := by
  rw [reconcile_status hr, get_status_eq_statusSpec hcat]

/-- Witness for C2 at a concrete input: the budget line (A, B, 10) with
no expenses yields the line-item row with spend 0 and status
`"Within Budget"`, matching the specification's rule. -/
theorem recon_status_matches_spec_witness :
    (⟨"A", "B", 10, 0, 10, "Within Budget"⟩ : ReconRow) ∈
        reconcile [⟨"A", "B", Cell.num 10⟩] [] ∧
      (⟨"A", "B", 10, 0, 10, "Within Budget"⟩ : ReconRow).status =
        statusSpec 10 0 := by
  have hmem : (⟨"A", "B", 10, 0, 10, "Within Budget"⟩ : ReconRow) ∈
      reconcile [⟨"A", "B", Cell.num 10⟩] [] := by
    norm_num +decide [reconcile, finalWithTotals, finalDf, mergedRows,
      mergedSpent, toNumeric0, oobRows, expense_agg, budgetBase,
      inBudgetExpenses, oobExpenses, isOob, budgetKeys, categoryTotals,
      withStatus, get_status, List.insertionSort, List.orderedInsert,
      List.filter_cons, List.find?]
  exact ⟨hmem,
    recon_status_matches_spec [⟨"A", "B", Cell.num 10⟩] [] _ hmem (by decide)⟩


/-- The display pairs of the dashboard's expense aggregation are pairwise
distinct (one output row per group key). -/
theorem expense_agg_pairs_nodup (es : List ExpenseRow) :
    ((expense_agg es).map fun a => (a.cat, a.sub)).Nodup := by
  unfold expense_agg
  simp only [List.map_map]
  have h1 : ((fun a : DisplayAgg => (a.cat, a.sub)) ∘
      (fun p : String × String =>
        ({ cat := p.1, sub := p.2
           amt := ((es.filter fun e =>
             (e.category_display, e.subcategory_display) = p).map
             (fun e => e.amount_spent)).sum } : DisplayAgg))) =
      fun p : String × String => p := by
    funext p
    rfl
  rw [h1]
  rw [List.map_id']
  exact (List.perm_insertionSort _ _).nodup_iff.mpr (List.nodup_dedup _)

/-- `find?` on a list of aggregates with pairwise-distinct display pairs
locates a member by its pair. -/
theorem find?_displayAgg_unique :
    ∀ (l : List DisplayAgg) (a : DisplayAgg),
      (l.map fun x => (x.cat, x.sub)).Nodup → a ∈ l →
      l.find? (fun x => (x.cat, x.sub) == (a.cat, a.sub)) = some a := by
  intro l
  induction l with
  | nil => intro a _ ha; cases ha
  | cons b t ih =>
    intro a hnd ha
    rw [List.map_cons, List.nodup_cons] at hnd
    rcases List.mem_cons.mp ha with rfl | hat
    · exact @List.find?_cons_of_pos _
        (fun x : DisplayAgg => (x.cat, x.sub) == (a.cat, a.sub)) a t (by simp)
    · have hne : ¬ ((fun x : DisplayAgg => (x.cat, x.sub) == (a.cat, a.sub)) b) = true := by
        intro h
        exact hnd.1 (beq_iff_eq.mp h ▸
          List.mem_map_of_mem (fun x : DisplayAgg => (x.cat, x.sub)) hat)
      rw [@List.find?_cons_of_neg _
        (fun x : DisplayAgg => (x.cat, x.sub) == (a.cat, a.sub)) b t hne]
      exact ih a hnd.2 hat

/-- Claim C1 (amended): the in-budget/out-of-budget partition of the
aggregated expenses is decided by membership of the exact display pair in
the budget's display-pair set, and an aggregated expense whose display
pair equals a budget line's is joined to that line (its spend becomes the
line's `Amount Spent`).  Since both sides' displays were stripped at
ingestion, only surrounding-whitespace differences are tolerated;
capitalization or internal-space differences are not. -/
theorem display_pair_join (bs : List BudgetRow) (es : List ExpenseRow) :
    (∀ a ∈ expense_agg es, (isOob bs a = false ↔ (a.cat, a.sub) ∈ budgetKeys bs))
    ∧ ∀ b ∈ budgetBase bs, ∀ a ∈ expense_agg es, a.cat = b.cat → a.sub = b.sub →
        isOob bs a = false ∧
        ({ cat := b.cat, sub := b.sub, budgeted := b.budgeted, spent := a.amt
           variance := b.budgeted - a.amt } : PreRow) ∈
          mergedRows bs (expense_agg es) := by
  constructor
  · intro a _
    unfold isOob
    rw [Bool.not_eq_false', List.elem_iff]
  · intro b hb a ha hcat hsub
    have hkey : (a.cat, a.sub) ∈ budgetKeys bs := by
      rw [hcat, hsub]
      exact List.mem_map_of_mem _ hb
    have hoob : isOob bs a = false := by
      unfold isOob
      rw [Bool.not_eq_false', List.elem_iff]
      exact hkey
    refine ⟨hoob, ?_⟩
    have hain : a ∈ inBudgetExpenses bs (expense_agg es) :=
      List.mem_filter.mpr ⟨ha, by rw [hoob]; rfl⟩
    have hnd : ((inBudgetExpenses bs (expense_agg es)).map
        fun x => (x.cat, x.sub)).Nodup :=
      (expense_agg_pairs_nodup es).sublist
        (List.Sublist.map _ (List.filter_sublist _))
    have hfind := find?_displayAgg_unique
      (inBudgetExpenses bs (expense_agg es)) a hnd hain
    have hspent : mergedSpent bs (expense_agg es) b = a.amt := by
      unfold mergedSpent
      have hpair : (b.cat, b.sub) = (a.cat, a.sub) := by rw [hcat, hsub]
      rw [hpair, hfind]
      rfl
    unfold mergedRows
    refine List.mem_map.mpr ⟨b, hb, ?_⟩
    rw [hspent]

/-- Witness for the amended C1 at a concrete input: the expense aggregate
(Office, Supplies, 300) whose display pair equals the budget line's is
classified in-budget and joined to the line. -/
theorem display_pair_join_witness :
    isOob [⟨"Office", "Supplies", Cell.num 1000⟩] ⟨"Office", "Supplies", 300⟩ = false ∧
    ({ cat := "Office", sub := "Supplies", budgeted := 1000, spent := 300
       variance := 1000 - 300 } : PreRow) ∈
      mergedRows [⟨"Office", "Supplies", Cell.num 1000⟩]
        (expense_agg [⟨"office", "supplies", "Office", "Supplies", 300⟩]) := by
  have hb : (⟨"Office", "Supplies", 1000⟩ : BaseRow) ∈
      budgetBase [⟨"Office", "Supplies", Cell.num 1000⟩] := by
    norm_num +decide [budgetBase, toNumeric0]
  have ha : (⟨"Office", "Supplies", 300⟩ : DisplayAgg) ∈
      expense_agg [⟨"office", "supplies", "Office", "Supplies", 300⟩] := by
    norm_num +decide [expense_agg, List.insertionSort, List.orderedInsert,
      List.filter_cons]

  exact (display_pair_join [⟨"Office", "Supplies", Cell.num 1000⟩]
    [⟨"office", "supplies", "Office", "Supplies", 300⟩]).2
    ⟨"Office", "Supplies", 1000⟩ hb ⟨"Office", "Supplies", 300⟩ ha rfl rfl

/-- Counterexample to C1 as stated: the budget line displays
(Office, Supplies) and the aggregated expense displays
(office, supplies) normalize to the same key pair, yet the expense is
classified out-of-budget: `is_oob` is true, the report contains the
synthesized OOB row carrying its whole spend, and the budget line's row
shows zero spend. -/
theorem normalized_join_counterexample :
    (normalize_key "office", normalize_key "supplies") ∈
        normBudgetKeys [⟨"Office", "Supplies", Cell.num 1000⟩] ∧
    (⟨"office", "supplies", 300⟩ : DisplayAgg) ∈
        expense_agg [⟨"office", "supplies", "office", "supplies", 300⟩] ∧
    isOob [⟨"Office", "Supplies", Cell.num 1000⟩] ⟨"office", "supplies", 300⟩ = true ∧
    (⟨"OOB", "supplies", 0, 300, -300, "Out of Budget"⟩ : ReconRow) ∈
        reconcile [⟨"Office", "Supplies", Cell.num 1000⟩]
          [⟨"office", "supplies", "office", "supplies", 300⟩] ∧
    (⟨"Office", "Supplies", 1000, 0, 1000, "Within Budget"⟩ : ReconRow) ∈
        reconcile [⟨"Office", "Supplies", Cell.num 1000⟩]
          [⟨"office", "supplies", "office", "supplies", 300⟩] := by
  refine ⟨by decide, ?_, by decide, ?_, ?_⟩
  · norm_num +decide [expense_agg, List.insertionSort, List.orderedInsert,
      List.filter_cons]
  · norm_num +decide [reconcile, finalWithTotals, finalDf, mergedRows,
      mergedSpent, toNumeric0, oobRows, expense_agg, budgetBase,
      inBudgetExpenses, oobExpenses, isOob, budgetKeys, categoryTotals,
      withStatus, get_status, List.insertionSort, List.orderedInsert,
      List.filter_cons, List.find?]
  · norm_num +decide [reconcile, finalWithTotals, finalDf, mergedRows,
      mergedSpent, toNumeric0, oobRows, expense_agg, budgetBase,
      inBudgetExpenses, oobExpenses, isOob, budgetKeys, categoryTotals,
      withStatus, get_status, List.insertionSort, List.orderedInsert,
      List.filter_cons, List.find?]


/-- Claim C5: an aggregated expense whose normalized key pair is absent
from the budget's normalized key set yields the synthesized OOB row
(`Amount Budgeted` 0, sentinel category, `Variance = −Spent`, status
`"Out of Budget"`) in the reconciliation output, and its display pair
differs from every budget line's, so its spend appears in no budget
line's row. -/
theorem oob_expense_isolated (bs : List BudgetRow) (es : List ExpenseRow)
    (a : DisplayAgg) (ha : a ∈ expense_agg es)
    (hkey : (normalize_key a.cat, normalize_key a.sub) ∉ normBudgetKeys bs) :
    (⟨"OOB", a.sub, 0, a.amt, -a.amt, "Out of Budget"⟩ : ReconRow) ∈
        reconcile bs es ∧
    ∀ r ∈ reconcile bs es, r.cat ≠ "OOB" → r.sub ≠ "TOTAL" →
      (r.cat, r.sub) ∈ budgetKeys bs ∧ (a.cat, a.sub) ≠ (r.cat, r.sub) := by
  have hpair : (a.cat, a.sub) ∉ budgetKeys bs := fun hmem =>
    hkey (List.mem_map_of_mem
      (fun p : String × String => (normalize_key p.1, normalize_key p.2)) hmem)
  have hc : (budgetKeys bs).contains (a.cat, a.sub) = false := by
    cases h : (budgetKeys bs).contains (a.cat, a.sub) with
    | false => rfl
    | true => exact absurd (List.elem_iff.mp h) hpair
  have hoob : isOob bs a = true := by
    unfold isOob
    rw [hc]
    rfl
  constructor
  · have hpre : (⟨"OOB", a.sub, 0, a.amt, -a.amt⟩ : PreRow) ∈
        oobRows bs (expense_agg es) := by
      unfold oobRows
      exact List.mem_map.mpr ⟨a, List.mem_filter.mpr ⟨ha, hoob⟩, rfl⟩
    have hfd : (⟨"OOB", a.sub, 0, a.amt, -a.amt, "Out of Budget"⟩ : ReconRow) ∈
        finalDf bs (expense_agg es) := by
      unfold finalDf
      refine List.mem_map.mpr ⟨_, List.mem_append.mpr (.inr hpre), ?_⟩
      unfold withStatus get_status
      simp
    exact mem_finalWithTotals_of_mem hfd
  · intro r hr hcat hsub
    rcases finalWithTotals_mem_split hr with h1 | h2
    · exact absurd (categoryTotals_shape h1).1 hsub
    · unfold finalDf at h2
      obtain ⟨p, hp, rfl⟩ := List.mem_map.mp h2
      rcases List.mem_append.mp hp with hm | ho
      · unfold mergedRows at hm
        obtain ⟨b, hb, rfl⟩ := List.mem_map.mp hm
        have hbk : (b.cat, b.sub) ∈ budgetKeys bs := List.mem_map_of_mem _ hb
        exact ⟨hbk, fun he => hpair (he ▸ hbk)⟩
      · unfold oobRows at ho
        obtain ⟨x, _, rfl⟩ := List.mem_map.mp ho
        exact absurd rfl hcat

/-- Witness for C5 at a concrete input: the aggregated expense
(Facilities, Rent, 200) has no normalized match in the budget
(Office, Supplies, 1000); the report contains its OOB row, and the
budget line's own row (spend 0) is recognized as a budget-line row the
expense cannot equal. -/
theorem oob_expense_isolated_witness :
    (⟨"OOB", "Rent", 0, 200, -200, "Out of Budget"⟩ : ReconRow) ∈
        reconcile [⟨"Office", "Supplies", Cell.num 1000⟩]
          [⟨"facilities", "rent", "Facilities", "Rent", 200⟩] ∧
    (("Facilities", "Rent") : String × String) ≠ ("Office", "Supplies") := by
  have ha : (⟨"Facilities", "Rent", 200⟩ : DisplayAgg) ∈
      expense_agg [⟨"facilities", "rent", "Facilities", "Rent", 200⟩] := by
    norm_num +decide [expense_agg, List.insertionSort, List.orderedInsert,
      List.filter_cons]
  have h := oob_expense_isolated [⟨"Office", "Supplies", Cell.num 1000⟩]
    [⟨"facilities", "rent", "Facilities", "Rent", 200⟩]
    ⟨"Facilities", "Rent", 200⟩ ha (by decide)
  exact ⟨h.1, by decide⟩

/-- Appending one allocation changes a line's allocated sum by the new
amount exactly when the new allocation belongs to the line. -/
theorem sumAllocFor_append (l : List Alloc) (x : Alloc) (c s : String) :
    sumAllocFor (l ++ [x]) c s =
      sumAllocFor l c s + (if x.cat = c ∧ x.sub = s then x.alloc else 0) := by
  unfold sumAllocFor
  rw [List.filter_append, List.map_append, List.sum_append]
  congr 1
  by_cases h : x.cat = c ∧ x.sub = s
  · rw [if_pos h]
    have hx : (x.cat == c && x.sub == s) = true := by
      simp [h.1, h.2]
    simp [List.filter_cons, hx]
  · rw [if_neg h]
    have hx : (x.cat == c && x.sub == s) = false := by
      rcases not_and_or.mp h with h1 | h1 <;> simp [h1]
    simp [List.filter_cons, hx]

/-- One Add-Allocation step preserves the per-line cap. -/
theorem addAllocation_le (base : List ClassLine) (db pending : List Alloc)
    (c s c' s' : String) (requested : ℚ) (status : String)
    (h : sumAllocFor db c s + sumAllocFor pending c s ≤ lineTotal base c s) :
    sumAllocFor db c s +
      sumAllocFor (addAllocation base db pending c' s' requested status) c s ≤
      lineTotal base c s := by
  unfold addAllocation
  split_ifs with h1 h2 h3
  · rw [sumAllocFor_append]
    by_cases hmatch : c' = c ∧ s' = s
    · rw [if_pos (show (⟨c', s', lineTotal base c' s', requested, status⟩ :
          Alloc).cat = c ∧ (⟨c', s', lineTotal base c' s', requested,
          status⟩ : Alloc).sub = s from ⟨hmatch.1, hmatch.2⟩)]
      obtain ⟨rfl, rfl⟩ := hmatch
      have hle := h2.2.1
      linarith
    · rw [if_neg (fun hcs => hmatch ⟨hcs.1, hcs.2⟩)]
      linarith
  · exact h
  · exact absurd (lt_of_lt_of_le h3.1 h3.2.1) (lt_irrefl 0)
  · exact h

/-- Claim C3 (amended): additions through the Add-Allocation control keep
every line's allocated sum within the line's total (the amount input is
capped at the remaining balance, counting saved and pending allocations),
and a request exceeding the cap leaves the pending set unchanged.  The
save path, by contrast, performs only per-row validation and no per-line
total check (see the counterexample). -/
theorem allocation_additions_capped :
    (∀ (base : List ClassLine) (db pending : List Alloc) (reqs : List AddReq)
      (c s : String),
      sumAllocFor db c s + sumAllocFor pending c s ≤ lineTotal base c s →
      sumAllocFor db c s + sumAllocFor (applyAdds base db pending reqs) c s ≤
        lineTotal base c s) ∧
    (∀ (base : List ClassLine) (db pending : List Alloc) (c' s' : String)
      (requested : ℚ) (status : String),
      (if lineTotal base c' s' -
          (sumAllocFor db c' s' + sumAllocFor pending c' s') > 0 then
        lineTotal base c' s' -
          (sumAllocFor db c' s' + sumAllocFor pending c' s')
      else 0) < requested →
      addAllocation base db pending c' s' requested status = pending) := by
  constructor
  · intro base db pending reqs
    induction reqs generalizing pending with
    | nil => intro c s h; exact h
    | cons r rs ih =>
      intro c s h
      exact ih _ c s (addAllocation_le base db pending c s r.cat r.sub
        r.requested r.status h)
  · intro base db pending c' s' requested status hgt
    unfold addAllocation
    rw [if_neg]
    intro hcond
    exact absurd hcond.2.1 (not_le.mpr hgt)

/-- Witness for the amended C3 at a concrete input: on the line
(Office, Supplies) with total 1000, two successive 600-requests leave the
allocated sum at 600 (the second is rejected), within the cap; and a
1200-request against the empty state leaves the pending set unchanged. -/
theorem allocation_additions_capped_witness :
    sumAllocFor [] "Office" "Supplies" +
      sumAllocFor (applyAdds [⟨"Office", "Supplies", 1000⟩] [] []
        [⟨"Office", "Supplies", 600, "Wishlist"⟩,
         ⟨"Office", "Supplies", 600, "Wishlist"⟩]) "Office" "Supplies" ≤
      lineTotal [⟨"Office", "Supplies", 1000⟩] "Office" "Supplies" ∧
    addAllocation [⟨"Office", "Supplies", 1000⟩] [] [] "Office" "Supplies"
      1200 "Wishlist" = [] := by
  constructor
  · exact allocation_additions_capped.1 [⟨"Office", "Supplies", 1000⟩] [] []
      [⟨"Office", "Supplies", 600, "Wishlist"⟩,
       ⟨"Office", "Supplies", 600, "Wishlist"⟩] "Office" "Supplies"
      (by norm_num [sumAllocFor, lineTotal, List.filter_cons])
  · exact allocation_additions_capped.2 [⟨"Office", "Supplies", 1000⟩] [] []
      "Office" "Supplies" 1200 "Wishlist"
      (by norm_num [sumAllocFor, lineTotal, List.filter_cons])

/-- Counterexample to C3 as stated: the edited allocation set 500 + 600
for the line (Office, Supplies) whose budget is 1000 passes the save
path's validation (both rows have a status and a positive amount), so
the over-allocated save is not rejected: the handler reaches persistence,
deletes the file's prior entries (autocommit) and then dies on the
missing `Month` column — prior persisted state is not left untouched. -/
theorem overallocation_save_not_rejected :
    ((500 : ℚ) + 600 > 1000) ∧
    saveAllocations "budget.xlsx"
      [⟨"Office", "Supplies", 1000, some (Cell.num 500), some "Wishlist"⟩,
       ⟨"Office", "Supplies", 1000, some (Cell.num 600), some "Wishlist"⟩]
      [⟨"Office", "Supplies", Cell.num 1000⟩] "user@x"
      [⟨"budget.xlsx", .str "Office", .str "Supplies", .str "annual",
        .num 1000, .str "Wishlist", "old@x"⟩] =
      .raisedKeyError "Month" [] ∧
    ([⟨"budget.xlsx", .str "Office", .str "Supplies", .str "annual",
       .num 1000, .str "Wishlist", "old@x"⟩] : Db) ≠ [] := by
  refine ⟨by norm_num, ?_, by decide⟩
  norm_num +decide [saveAllocations, validRow, deleteFile,
    save_budget_state_monthly, insertStateRow, dictGet, buildFinalRows,
    cellToPyVal, upsert, List.filter_cons, List.find?, bind, Except.bind,
    pure, Except.pure]


/-- The dashboard's final frame has no `Month` column, so the very first
row already fails the persistence layer's `r["Month"]` lookup. -/
theorem save_state_monthly_month_keyerror (file : String)
    (budget : List BudgetRow) (valid : List EditedRow) (user : String)
    (db : Db) (hv : valid ≠ []) :
    save_budget_state_monthly file (buildFinalRows budget valid) user db =
      .error "Month" := by
  cases valid with
  | nil => exact absurd rfl hv
  | cons r rest =>
    simp +decide [save_budget_state_monthly, buildFinalRows, insertStateRow,
      dictGet, List.find?, bind, Except.bind]

/-- Claim C4 (code divergence): a save whose edited set contains at least
one valid row passes validation, deletes the file's persisted entries
(autocommit) and then raises `KeyError("Month")` inside
`save_budget_state_monthly`, because the dashboard's frame carries no
`Month` column — nothing is inserted, and the store is left holding only
the deletion. -/
theorem save_valid_rows_raises_month_keyerror (file : String)
    (edited : List EditedRow) (budget : List BudgetRow) (user : String)
    (db0 : Db) (hne : edited ≠ []) (hv : edited.filter validRow ≠ []) :
    saveAllocations file edited budget user db0 =
      .raisedKeyError "Month" (deleteFile db0 file) := by
  unfold saveAllocations
  rw [if_neg hne, if_neg hv,
    save_state_monthly_month_keyerror file budget (edited.filter validRow)
      user (deleteFile db0 file) hv]


/-- Witness for C4's divergence theorem at the failing input: one valid
edited row (Office, Supplies, allocation 500, Wishlist) against a store
holding one prior entry for the file; the save deletes the prior entry
and raises the `Month` key error. -/
theorem save_valid_rows_raises_month_keyerror_witness :
    saveAllocations "fileA.xlsx"
      [⟨"Office", "Supplies", 1000, some (Cell.num 500), some "Wishlist"⟩]
      [⟨"Office", "Supplies", Cell.num 1000⟩] "user@x"
      [⟨"fileA.xlsx", .str "Office", .str "Supplies", .str "annual",
        .num 700, .str "Wishlist", "old@x"⟩] =
      .raisedKeyError "Month"
        (deleteFile
          [⟨"fileA.xlsx", .str "Office", .str "Supplies", .str "annual",
            .num 700, .str "Wishlist", "old@x"⟩] "fileA.xlsx") ∧
    deleteFile
      [⟨"fileA.xlsx", .str "Office", .str "Supplies", .str "annual",
        .num 700, .str "Wishlist", "old@x"⟩] "fileA.xlsx" = [] := by
  constructor
  · exact save_valid_rows_raises_month_keyerror "fileA.xlsx"
      [⟨"Office", "Supplies", 1000, some (Cell.num 500), some "Wishlist"⟩]
      [⟨"Office", "Supplies", Cell.num 1000⟩] "user@x"
      [⟨"fileA.xlsx", .str "Office", .str "Supplies", .str "annual",
        .num 700, .str "Wishlist", "old@x"⟩]
      (by decide) (by decide)
  · decide

/-- Claim C7: the dashboard summary equals the specification's summary —
per-status sums of the persisted amounts (`Allocated Amount` when the
column exists, else `Amount`), every status without entries reported as
0, with the `"Spent"` tile forced to the aggregated ledger spend and the
`"Out of Budget"` tile forced to the spend whose display pair is absent
from the budget. -/
theorem dashboard_summary_matches_spec (bs : List BudgetRow)
    (es : List ExpenseRow) (st : SavedState) :
    dashboardSummary bs es st = summarySpec bs es st := by
  unfold dashboardSummary summarySpec overrideTile summaryTotals
  cases hrows : st.rows with
  | nil =>
    rw [show (if ([] : List StateRow).isEmpty then
        statusOptions.map fun s => ((s, 0) : String × ℚ)
      else statusOptions.map fun s =>
        (s, ((([] : List StateRow).filter fun r =>
          r.statusCat == some s).map (amountColVal st)).sum)) =
        statusOptions.map fun s => ((s, 0) : String × ℚ) from if_pos rfl]
    rw [List.map_map, List.map_map]
    refine List.map_congr_left ?_
    intro s _
    simp only [Function.comp]
    by_cases h1 : s = "Spent"
    · rw [if_pos h1]
      have h2 : s ≠ "Out of Budget" := by rw [h1]; decide
      simp [if_neg h2, h1]
    · rw [if_neg h1]
      by_cases h2 : s = "Out of Budget"
      · simp [if_pos h2, h1]
      · simp [if_neg h2, h1, h2]
  | cons r rs =>
    rw [show (if (r :: rs).isEmpty then
        statusOptions.map fun s => ((s, 0) : String × ℚ)
      else statusOptions.map fun s =>
        (s, (((r :: rs).filter fun x =>
          x.statusCat == some s).map (amountColVal st)).sum)) =
        statusOptions.map fun s =>
          (s, (((r :: rs).filter fun x =>
            x.statusCat == some s).map (amountColVal st)).sum) from
      if_neg (by simp)]
    rw [List.map_map, List.map_map]
    refine List.map_congr_left ?_
    intro s _
    simp only [Function.comp]
    by_cases h1 : s = "Spent"
    · rw [if_pos h1]
      have h2 : s ≠ "Out of Budget" := by rw [h1]; decide
      simp [if_neg h2, h1]
    · rw [if_neg h1]
      by_cases h2 : s = "Out of Budget"
      · simp [if_pos h2, h1]
      · simp [if_neg h2, h1, h2]


/-- The aggregation step produces one row per groupby quadruple, each
carrying the sum of the converted amounts of its group. -/
theorem aggregateConverted_spec (cvt : List (WorkRow × ℚ)) :
    ((aggregateConverted cvt).map quadOf).Nodup ∧
    ∀ a ∈ aggregateConverted cvt, a.amount_spent =
      (((goodRows cvt).filter fun p => workQuad p.1 = quadOf a).map
        (fun p => p.2)).sum := by
  constructor
  · unfold aggregateConverted
    rw [List.map_map]
    have h1 : (quadOf ∘ fun q : String × String × String × String =>
        ({ category_key := q.1, subcategory_key := q.2.1
           category_display := q.2.2.1, subcategory_display := q.2.2.2
           amount_spent := (((goodRows cvt).filter fun p =>
             workQuad p.1 = q).map (fun p => p.2)).sum } : ExpenseRow)) =
        fun q => q := by
      funext q
      rfl
    rw [h1, List.map_id']
    exact (List.perm_insertionSort _ _).nodup_iff.mpr (List.nodup_dedup _)
  · intro a ha
    unfold aggregateConverted at ha
    obtain ⟨q, hq, rfl⟩ := List.mem_map.mp ha
    rfl

/-- A successful `parseExpense` run returns one row per groupby
quadruple, each amount the sum of its group's converted amounts. -/
theorem parseExpense_ok_spec (cols : List String) (rows : List LedgerRow)
    (y : Int) (bt : String) (rates : List (String × ℚ))
    (agg : List ExpenseRow)
    (h : parseExpense cols rows y bt rates = .ok agg) :
    (agg.map quadOf).Nodup ∧
    ∀ a ∈ agg, a.amount_spent =
      (((goodRows (convertedRows (survivorsOf rows y bt) rates)).filter
        fun p => workQuad p.1 = quadOf a).map (fun p => p.2)).sum := by
  unfold parseExpense at h
  by_cases hm : expenseRequiredColumns.filter (fun c => !(cols.contains c)) ≠ []
  · rw [if_pos hm] at h
    cases h
  · rw [if_neg hm] at h
    cases htgt : classificationTarget (pyLower bt) with
    | none =>
      rw [htgt] at h
      cases h
    | some tgt =>
      rw [htgt] at h
      dsimp only at h
      have hsurv : survivorsOf rows y bt = applyFilters rows y tgt := by
        unfold survivorsOf
        rw [htgt]
      rw [hsurv]
      by_cases hs : applyFilters rows y tgt = []
      · rw [if_pos hs] at h
        injection h with h2
        subst h2
        exact ⟨by simp, by intro a ha; cases ha⟩
      · rw [if_neg hs] at h
        by_cases hsplit : (applyFilters rows y tgt).all
            (fun r => (splitStars r.subCategory.data).length == 1) = true
        · rw [if_pos hsplit] at h
          cases h
        · rw [if_neg hsplit] at h
          by_cases hcvt : convertedRows (applyFilters rows y tgt) rates = []
          · rw [if_pos hcvt] at h
            injection h with h2
            subst h2
            exact ⟨by simp, by intro a ha; cases ha⟩
          · rw [if_neg hcvt] at h
            injection h with h2
            subst h2
            exact aggregateConverted_spec _

/-- Whether `parseExpense` fails is independent of the rate table: every
structural check happens before conversion, and conversion failures only
shrink the converted set. -/
theorem parseExpense_ok_rates_independent (cols : List String)
    (rows : List LedgerRow) (y : Int) (bt : String)
    (rates rates' : List (String × ℚ)) :
    exceptOk (parseExpense cols rows y bt rates) =
      exceptOk (parseExpense cols rows y bt rates') := by
  unfold parseExpense
  by_cases hm : expenseRequiredColumns.filter (fun c => !(cols.contains c)) ≠ []
  · rw [if_pos hm, if_pos hm]
  · rw [if_neg hm, if_neg hm]
    cases htgt : classificationTarget (pyLower bt) with
    | none => rfl
    | some tgt =>
      dsimp only
      by_cases hs : applyFilters rows y tgt = []
      · rw [if_pos hs, if_pos hs]
      · rw [if_neg hs, if_neg hs]
        by_cases hsplit : (applyFilters rows y tgt).all
            (fun r => (splitStars r.subCategory.data).length == 1) = true
        · rw [if_pos hsplit, if_pos hsplit]
        · rw [if_neg hsplit, if_neg hsplit]
          by_cases h1 : convertedRows (applyFilters rows y tgt) rates = []
          · rw [if_pos h1]
            by_cases h2 : convertedRows (applyFilters rows y tgt) rates' = []
            · rw [if_pos h2]
            · rw [if_neg h2]
              rfl
          · rw [if_neg h1]
            by_cases h2 : convertedRows (applyFilters rows y tgt) rates' = []
            · rw [if_pos h2]
              rfl
            · rw [if_neg h2]
              rfl

/-- Claim C9: a transaction whose currency conversion fails contributes
to no aggregate — it is absent from the grouped row set whose sums make
up every output amount — and conversion failures never make the batch
fail: the run's success is independent of the rate table. -/
theorem conversion_failure_excluded (cols : List String)
    (rows : List LedgerRow) (y : Int) (bt : String)
    (rates : List (String × ℚ)) (t : LedgerRow) (agg : List ExpenseRow)
    (hconv : convert_row_amount_to_usd t.amount t.currency rates = none)
    (hok : parseExpense cols rows y bt rates = .ok agg) :
    (∀ p ∈ goodRows (convertedRows (survivorsOf rows y bt) rates),
      p.1.row ≠ t) ∧
    (∀ a ∈ agg, a.amount_spent =
      (((goodRows (convertedRows (survivorsOf rows y bt) rates)).filter
        fun p => workQuad p.1 = quadOf a).map (fun p => p.2)).sum) ∧
    (∀ rates' : List (String × ℚ),
      exceptOk (parseExpense cols rows y bt rates') = true) := by
  refine ⟨?_, (parseExpense_ok_spec cols rows y bt rates agg hok).2, ?_⟩
  · intro p hp heq
    have hcvt : p ∈ convertedRows (survivorsOf rows y bt) rates :=
      (List.mem_filter.mp hp).1
    unfold convertedRows at hcvt
    obtain ⟨w, _, hw⟩ := List.mem_filterMap.mp hcvt
    obtain ⟨v, hv, hwp⟩ := Option.map_eq_some'.mp hw
    have hw1 : w = p.1 := congrArg Prod.fst hwp
    rw [hw1, heq, hconv] at hv
    cases hv
  · intro rates'
    rw [← parseExpense_ok_rates_independent cols rows y bt rates rates', hok]
    rfl


/-- Witness for C9 at a concrete input: of two surviving transactions,
the one with currency "XYZ" (absent from the rate table) is dropped while
the batch succeeds with the other's aggregate, and the run stays
successful under any other rate table. -/
theorem conversion_failure_excluded_witness :
    (⟨"Musson", "V1", "OPEX", "Office *** Supplies", Cell.num 100,
        "2025-01-01", "Approved", "approved", "approved", "approved",
        "USD", 2025⟩ : LedgerRow) ≠
      ⟨"Musson", "V2", "OPEX", "Travel *** Taxi", Cell.num 50,
        "2025-01-02", "Approved", "approved", "approved", "approved",
        "XYZ", 2025⟩ ∧
    exceptOk (parseExpense expenseRequiredColumns
      [⟨"Musson", "V1", "OPEX", "Office *** Supplies", Cell.num 100,
         "2025-01-01", "Approved", "approved", "approved", "approved",
         "USD", 2025⟩,
       ⟨"Musson", "V2", "OPEX", "Travel *** Taxi", Cell.num 50,
         "2025-01-02", "Approved", "approved", "approved", "approved",
         "XYZ", 2025⟩] 2025 "Budget(OPEX)" [("GBP", 2)]) = true := by
  have hconv : convert_row_amount_to_usd
      (⟨"Musson", "V2", "OPEX", "Travel *** Taxi", Cell.num 50,
        "2025-01-02", "Approved", "approved", "approved", "approved",
        "XYZ", 2025⟩ : LedgerRow).amount
      (⟨"Musson", "V2", "OPEX", "Travel *** Taxi", Cell.num 50,
        "2025-01-02", "Approved", "approved", "approved", "approved",
        "XYZ", 2025⟩ : LedgerRow).currency [("USD", (1 : ℚ))] = none := by
    decide
  have hok : parseExpense expenseRequiredColumns
      [⟨"Musson", "V1", "OPEX", "Office *** Supplies", Cell.num 100,
         "2025-01-01", "Approved", "approved", "approved", "approved",
         "USD", 2025⟩,
       ⟨"Musson", "V2", "OPEX", "Travel *** Taxi", Cell.num 50,
         "2025-01-02", "Approved", "approved", "approved", "approved",
         "XYZ", 2025⟩] 2025 "Budget(OPEX)" [("USD", 1)] =
      .ok [⟨"office", "supplies", "Office", "Supplies", 100⟩] := by
    norm_num +decide [parseExpense, applyFilters, classificationTarget,
      survivorsOf, convertedRows, toWork, splitN1, splitStars, joinStars,
      pyStrip, pyLower, pyUpper, removeSpaces, normalize_key,
      convert_row_amount_to_usd, toNumericOpt, goodRows, aggregateConverted,
      workQuad, quadOf, List.insertionSort, List.orderedInsert,
      List.filter_cons, List.find?, List.filterMap_cons, List.filterMap_nil,
      Option.map_some', Option.map_none', Option.getD]
  have hmem : (⟨⟨⟨"Musson", "V1", "OPEX", "Office *** Supplies", Cell.num 100,
      "2025-01-01", "Approved", "approved", "approved", "approved",
      "USD", 2025⟩, "Office", some "Supplies", "office", "supplies"⟩,
      (100 : ℚ)⟩ : WorkRow × ℚ) ∈
      goodRows (convertedRows (survivorsOf
        [⟨"Musson", "V1", "OPEX", "Office *** Supplies", Cell.num 100,
           "2025-01-01", "Approved", "approved", "approved", "approved",
           "USD", 2025⟩,
         ⟨"Musson", "V2", "OPEX", "Travel *** Taxi", Cell.num 50,
           "2025-01-02", "Approved", "approved", "approved", "approved",
           "XYZ", 2025⟩] 2025 "Budget(OPEX)") [("USD", 1)]) := by
    norm_num +decide [applyFilters, classificationTarget, survivorsOf,
      convertedRows, toWork, splitN1, splitStars, joinStars, pyStrip,
      pyLower, pyUpper, removeSpaces, normalize_key,
      convert_row_amount_to_usd, toNumericOpt, goodRows, List.filter_cons,
      List.find?, List.filterMap_cons, List.filterMap_nil,
      Option.map_some', Option.map_none', Option.getD]
  have h := conversion_failure_excluded expenseRequiredColumns
    [⟨"Musson", "V1", "OPEX", "Office *** Supplies", Cell.num 100,
       "2025-01-01", "Approved", "approved", "approved", "approved",
       "USD", 2025⟩,
     ⟨"Musson", "V2", "OPEX", "Travel *** Taxi", Cell.num 50,
       "2025-01-02", "Approved", "approved", "approved", "approved",
       "XYZ", 2025⟩] 2025 "Budget(OPEX)" [("USD", 1)]
    ⟨"Musson", "V2", "OPEX", "Travel *** Taxi", Cell.num 50,
      "2025-01-02", "Approved", "approved", "approved", "approved",
      "XYZ", 2025⟩
    [⟨"office", "supplies", "Office", "Supplies", 100⟩] hconv hok
  exact ⟨h.1 _ hmem, h.2.2 [("GBP", 2)]⟩


/-- Claim C6 (amended): the aggregation produces exactly one output row
per `(category_key, subcategory_key, category_display,
subcategory_display)` quadruple — transactions equal in normalized keys
and display strings combine into one summed row, while equal keys with
different display strings yield separate rows (see the counterexample). -/
theorem agg_one_row_per_quadruple (cols : List String)
    (rows : List LedgerRow) (y : Int) (bt : String)
    (rates : List (String × ℚ)) (agg : List ExpenseRow)
    (h : parseExpense cols rows y bt rates = .ok agg) :
    (agg.map quadOf).Nodup ∧
    ∀ a ∈ agg, a.amount_spent =
      (((goodRows (convertedRows (survivorsOf rows y bt) rates)).filter
        fun p => workQuad p.1 = quadOf a).map (fun p => p.2)).sum :=
  parseExpense_ok_spec cols rows y bt rates agg h

/-- Witness for the amended C6 at a concrete input: two transactions
whose composite fields normalize to the same keys but display differently
produce an aggregate with pairwise-distinct quadruples, the first row
summing its own group. -/
theorem agg_one_row_per_quadruple_witness :
    (([⟨"office", "supplies", "Office", "Supplies", 100⟩,
       ⟨"office", "supplies", "office", "supplies", 50⟩] :
        List ExpenseRow).map quadOf).Nodup ∧
    (⟨"office", "supplies", "Office", "Supplies", 100⟩ :
        ExpenseRow).amount_spent =
      (((goodRows (convertedRows (survivorsOf
          [⟨"Musson", "V1", "OPEX", "Office *** Supplies", Cell.num 100,
             "2025-01-01", "Approved", "approved", "approved", "approved",
             "USD", 2025⟩,
           ⟨"Musson", "V2", "OPEX", "office***supplies", Cell.num 50,
             "2025-01-02", "Approved", "approved", "approved", "approved",
             "USD", 2025⟩] 2025 "Budget(OPEX)") [("USD", 1)])).filter
        fun p => workQuad p.1 =
          quadOf (⟨"office", "supplies", "Office", "Supplies", 100⟩ :
            ExpenseRow)).map (fun p => p.2)).sum := by
  have hok : parseExpense expenseRequiredColumns
      [⟨"Musson", "V1", "OPEX", "Office *** Supplies", Cell.num 100,
         "2025-01-01", "Approved", "approved", "approved", "approved",
         "USD", 2025⟩,
       ⟨"Musson", "V2", "OPEX", "office***supplies", Cell.num 50,
         "2025-01-02", "Approved", "approved", "approved", "approved",
         "USD", 2025⟩] 2025 "Budget(OPEX)" [("USD", 1)] =
      .ok [⟨"office", "supplies", "Office", "Supplies", 100⟩,
           ⟨"office", "supplies", "office", "supplies", 50⟩] := by
    norm_num +decide [parseExpense, applyFilters, classificationTarget,
      survivorsOf, convertedRows, toWork, splitN1, splitStars, joinStars,
      pyStrip, pyLower, pyUpper, removeSpaces, normalize_key,
      convert_row_amount_to_usd, toNumericOpt, goodRows, aggregateConverted,
      workQuad, quadOf, List.insertionSort, List.orderedInsert,
      List.filter_cons, List.find?, List.filterMap_cons, List.filterMap_nil,
      Option.map_some', Option.map_none', Option.getD]
  have h := agg_one_row_per_quadruple expenseRequiredColumns
    [⟨"Musson", "V1", "OPEX", "Office *** Supplies", Cell.num 100,
       "2025-01-01", "Approved", "approved", "approved", "approved",
       "USD", 2025⟩,
     ⟨"Musson", "V2", "OPEX", "office***supplies", Cell.num 50,
       "2025-01-02", "Approved", "approved", "approved", "approved",
       "USD", 2025⟩] 2025 "Budget(OPEX)" [("USD", 1)]
    [⟨"office", "supplies", "Office", "Supplies", 100⟩,
     ⟨"office", "supplies", "office", "supplies", 50⟩] hok
  exact ⟨h.1, h.2 _ (List.mem_cons_self _ _)⟩

/-- Counterexample to C6 as stated: two transactions normalizing to the
same `(category_key, subcategory_key)` but displaying differently yield
two distinct aggregate rows for that one normalized pair, not one. -/
theorem agg_display_split_counterexample :
    parseExpense expenseRequiredColumns
      [⟨"Musson", "V1", "OPEX", "Office *** Supplies", Cell.num 100,
         "2025-01-01", "Approved", "approved", "approved", "approved",
         "USD", 2025⟩,
       ⟨"Musson", "V2", "OPEX", "office***supplies", Cell.num 50,
         "2025-01-02", "Approved", "approved", "approved", "approved",
         "USD", 2025⟩] 2025 "Budget(OPEX)" [("USD", 1)] =
      .ok [⟨"office", "supplies", "Office", "Supplies", 100⟩,
           ⟨"office", "supplies", "office", "supplies", 50⟩] ∧
    (⟨"office", "supplies", "Office", "Supplies", 100⟩ :
        ExpenseRow).category_key =
      (⟨"office", "supplies", "office", "supplies", 50⟩ :
        ExpenseRow).category_key ∧
    (⟨"office", "supplies", "Office", "Supplies", 100⟩ :
        ExpenseRow).subcategory_key =
      (⟨"office", "supplies", "office", "supplies", 50⟩ :
        ExpenseRow).subcategory_key ∧
    (⟨"office", "supplies", "Office", "Supplies", 100⟩ : ExpenseRow) ≠
      ⟨"office", "supplies", "office", "supplies", 50⟩ := by
  refine ⟨?_, rfl, rfl, by decide⟩
  norm_num +decide [parseExpense, applyFilters, classificationTarget,
    survivorsOf, convertedRows, toWork, splitN1, splitStars, joinStars,
    pyStrip, pyLower, pyUpper, removeSpaces, normalize_key,
    convert_row_amount_to_usd, toNumericOpt, goodRows, aggregateConverted,
    workQuad, quadOf, List.insertionSort, List.orderedInsert,
    List.filter_cons, List.find?, List.filterMap_cons, List.filterMap_nil,
    Option.map_some', Option.map_none', Option.getD]

/-- Claim C8 (amended): missing required columns are fatal for budget and
expense ingestion, naming the missing set; an unrecognized budget-type
token is fatal, naming the (lower-cased) value; and the composite-field
shape check aborts the batch exactly when no surviving row contains the
`***` delimiter — a malformed row among well-formed ones does not abort
(see the counterexample). -/
theorem structural_errors_fatal :
    (∀ (cols : List String) (rows : List WideRow),
      budgetRequiredColumns.filter (fun c => !(cols.contains c)) ≠ [] →
      loadBudget cols rows = .error (.missingColumns
        (budgetRequiredColumns.filter (fun c => !(cols.contains c))))) ∧
    (∀ (cols : List String) (rows : List LedgerRow) (y : Int) (bt : String)
      (rates : List (String × ℚ)),
      expenseRequiredColumns.filter (fun c => !(cols.contains c)) ≠ [] →
      parseExpense cols rows y bt rates = .error (.missingColumns
        (expenseRequiredColumns.filter (fun c => !(cols.contains c))))) ∧
    (∀ (cols : List String) (rows : List LedgerRow) (y : Int) (bt : String)
      (rates : List (String × ℚ)),
      expenseRequiredColumns.filter (fun c => !(cols.contains c)) = [] →
      classificationTarget (pyLower bt) = none →
      parseExpense cols rows y bt rates =
        .error (.unknownBudgetType (pyLower bt))) ∧
    (∀ (cols : List String) (rows : List LedgerRow) (y : Int)
      (bt tgt : String) (rates : List (String × ℚ)),
      expenseRequiredColumns.filter (fun c => !(cols.contains c)) = [] →
      classificationTarget (pyLower bt) = some tgt →
      applyFilters rows y tgt ≠ [] →
      (applyFilters rows y tgt).all
        (fun r => (splitStars r.subCategory.data).length == 1) = true →
      parseExpense cols rows y bt rates = .error .malformedComposite) := by
  refine ⟨?_, ?_, ?_, ?_⟩
  · intro cols rows hm
    unfold loadBudget
    rw [if_pos hm]
  · intro cols rows y bt rates hm
    unfold parseExpense
    rw [if_pos hm]
  · intro cols rows y bt rates hm htgt
    unfold parseExpense
    rw [if_neg (not_not_intro hm), htgt]
  · intro cols rows y bt tgt rates hm htgt hs hall
    unfold parseExpense
    rw [if_neg (not_not_intro hm), htgt]
    dsimp only
    rw [if_neg hs, if_pos hall]

/-- Witness for the amended C8 at concrete inputs: a budget header with
only `Category`, an expense header missing everything, the token
`Budget(FOO)`, and a batch whose single surviving row has no delimiter
each produce the corresponding fatal error. -/
theorem structural_errors_fatal_witness :
    loadBudget ["Category"] [] = .error (.missingColumns
      (budgetRequiredColumns.filter
        (fun c => !((["Category"] : List String).contains c)))) ∧
    parseExpense [] [] 0 "Budget(OPEX)" [] = .error (.missingColumns
      (expenseRequiredColumns.filter
        (fun c => !(([] : List String).contains c)))) ∧
    parseExpense expenseRequiredColumns [] 0 "Budget(FOO)" [] =
      .error (.unknownBudgetType (pyLower "Budget(FOO)")) ∧
    parseExpense expenseRequiredColumns
      [⟨"Musson", "V1", "OPEX", "FacilitiesRent", Cell.num 60, "2025-01-01",
        "Approved", "approved", "approved", "approved", "USD", 2025⟩]
      2025 "Budget(OPEX)" [] = .error .malformedComposite := by
  refine ⟨?_, ?_, ?_, ?_⟩
  · exact structural_errors_fatal.1 ["Category"] [] (by decide)
  · exact structural_errors_fatal.2.1 [] [] 0 "Budget(OPEX)" [] (by decide)
  · exact structural_errors_fatal.2.2.1 expenseRequiredColumns [] 0
      "Budget(FOO)" [] (by decide) (by decide)
  · exact structural_errors_fatal.2.2.2 expenseRequiredColumns
      [⟨"Musson", "V1", "OPEX", "FacilitiesRent", Cell.num 60, "2025-01-01",
        "Approved", "approved", "approved", "approved", "USD", 2025⟩]
      2025 "Budget(OPEX)" "OPEX" [] (by decide) (by decide) (by decide)
      (by decide)

/-- Counterexample to C8 as stated: a surviving ledger row whose
composite field does not split (no `***`) does not abort the batch when
another surviving row does split — the batch succeeds and the malformed
row is silently absent from the aggregate. -/
theorem malformed_composite_no_abort :
    (splitStars ("FacilitiesRent".data)).length = 1 ∧
    (⟨"Musson", "V2", "OPEX", "FacilitiesRent", Cell.num 60, "2025-01-02",
       "Approved", "approved", "approved", "approved", "USD", 2025⟩ :
      LedgerRow) ∈ applyFilters
        [⟨"Musson", "V1", "OPEX", "Office *** Supplies", Cell.num 100,
           "2025-01-01", "Approved", "approved", "approved", "approved",
           "USD", 2025⟩,
         ⟨"Musson", "V2", "OPEX", "FacilitiesRent", Cell.num 60, "2025-01-02",
           "Approved", "approved", "approved", "approved", "USD", 2025⟩]
        2025 "OPEX" ∧
    parseExpense expenseRequiredColumns
      [⟨"Musson", "V1", "OPEX", "Office *** Supplies", Cell.num 100,
         "2025-01-01", "Approved", "approved", "approved", "approved",
         "USD", 2025⟩,
       ⟨"Musson", "V2", "OPEX", "FacilitiesRent", Cell.num 60, "2025-01-02",
         "Approved", "approved", "approved", "approved", "USD", 2025⟩]
      2025 "Budget(OPEX)" [("USD", 1)] =
      .ok [⟨"office", "supplies", "Office", "Supplies", 100⟩] := by
  refine ⟨by decide, by decide, ?_⟩
  norm_num +decide [parseExpense, applyFilters, classificationTarget,
    survivorsOf, convertedRows, toWork, splitN1, splitStars, joinStars,
    pyStrip, pyLower, pyUpper, removeSpaces, normalize_key,
    convert_row_amount_to_usd, toNumericOpt, goodRows, aggregateConverted,
    workQuad, quadOf, List.insertionSort, List.orderedInsert,
    List.filter_cons, List.find?, List.filterMap_cons, List.filterMap_nil,
    Option.map_some', Option.map_none', Option.getD]


/-- With pairwise-distinct display pairs, filtering the wide rows on one
row's pair keeps exactly that row. -/
theorem wide_filter_pair_singleton :
    ∀ (rows : List WideRow) (r : WideRow),
      (rows.map widePair).Nodup → r ∈ rows →
      rows.filter (fun x => widePair x = widePair r) = [r] := by
  intro rows
  induction rows with
  | nil => intro r _ hr; cases hr
  | cons a t ih =>
    intro r hnd hr
    rw [List.map_cons, List.nodup_cons] at hnd
    rcases List.mem_cons.mp hr with rfl | hrt
    · rw [List.filter_cons, if_pos (by simp)]
      have ht : t.filter (fun x => widePair x = widePair r) = [] := by
        rw [List.filter_eq_nil_iff]
        intro x hx
        simp only [decide_eq_true_eq]
        intro hxe
        exact hnd.1 (hxe ▸ List.mem_map_of_mem widePair hx)
      rw [ht]
    · have hne : ¬ (widePair a = widePair r) := fun he =>
        hnd.1 (he ▸ List.mem_map_of_mem widePair hrt)
      rw [List.filter_cons, if_neg (by simpa using hne)]
      exact ih r hnd.2 hrt

/-- Indexing a 12-cell list through `getD` over `range 12` is the same as
mapping over the list. -/
theorem range_getD_map_toNumeric0 (l : List Cell) (h : l.length = 12) :
    (List.range 12).map (fun i => toNumeric0 (l.getD i (.text ""))) =
      l.map toNumeric0 := by
  apply List.ext_getElem
  · simp [h]
  · intro i h1 h2
    simp only [List.getElem_map, List.getElem_range]
    rw [List.getD_eq_getElem]

/-- Filtering the melt of `rows` on a present pair keeps that row's
twelve month entries, in month order. -/
theorem melt_filter_pair (rows : List WideRow) (r : WideRow)
    (htrim : ∀ x ∈ rows, pyStrip x.cat = x.cat ∧ pyStrip x.sub = x.sub)
    (hnd : (rows.map widePair).Nodup) (hr : r ∈ rows) :
    (meltRows rows).filter (fun lr => longPair lr = widePair r) =
      (List.range 12).map (fun i => mkLong i r) := by
  unfold meltRows
  have hmain : ∀ js : List Nat,
      ((js.flatMap fun i => rows.map (mkLong i)).filter
        (fun lr => longPair lr = widePair r)) =
      js.map (fun i => mkLong i r) := by
    intro js
    induction js with
    | nil => rfl
    | cons j t ih =>
      rw [List.flatMap_cons, List.filter_append, ih, List.map_cons]
      rw [List.filter_map]
      have hcongr : (rows.filter
          ((fun lr => decide (longPair lr = widePair r)) ∘ mkLong j)) =
          rows.filter (fun x => widePair x = widePair r) := by
        apply List.filter_congr
        intro x hx
        simp only [Function.comp]
        have hx1 := (htrim x hx).1
        have hx2 := (htrim x hx).2
        unfold longPair mkLong widePair
        rw [hx1, hx2]
      rw [hcongr, wide_filter_pair_singleton rows r hnd hr, List.map_cons,
        List.map_nil]
      rfl
  exact hmain (List.range 12)

/-- Every month index below 12 selects exactly its own month name after
the lower-case/title-case round trip. -/
theorem month_filter_singleton :
    ∀ i ∈ List.range 12,
      (List.range 12).filter
        (fun j => pyTitle (pyLower (monthName j)) = monthName i) = [i] := by
  decide

/-- Claim C10 (amended): for a wide budget table whose category and
sub-category cells are already trimmed, with pairwise-distinct display
pairs, rows sorted by (Category, Sub-Category), and twelve month cells
per row, converting to long form and back reproduces the table with the
Category and Sub-Category columns exact and the month and Total columns
numerically coerced (non-numeric cells becoming 0), in the canonical
column order. -/
theorem reshape_roundtrip_amended (rows : List WideRow)
    (htrim : ∀ x ∈ rows, pyStrip x.cat = x.cat ∧ pyStrip x.sub = x.sub)
    (hlen : ∀ x ∈ rows, x.months.length = 12)
    (hnd : (rows.map widePair).Nodup)
    (hsorted : List.Sorted pairLe (rows.map widePair)) :
    adaptBudgetLongToClassification (meltRows rows) =
      rows.map (fun r => { cat := r.cat, sub := r.sub
                           months := r.months.map toNumeric0
                           total := toNumeric0 r.total }) := by
  have hmem : ∀ p, p ∈ (meltRows rows).map longPair ↔ p ∈ rows.map widePair := by
    intro p
    constructor
    · intro hp
      obtain ⟨lr, hlr, rfl⟩ := List.mem_map.mp hp
      unfold meltRows at hlr
      obtain ⟨i, _, hi⟩ := List.mem_flatMap.mp hlr
      obtain ⟨r, hrr, rfl⟩ := List.mem_map.mp hi
      have ht := htrim r hrr
      have : longPair (mkLong i r) = widePair r := by
        unfold longPair mkLong widePair
        rw [ht.1, ht.2]
      rw [this]
      exact List.mem_map_of_mem widePair hrr
    · intro hp
      obtain ⟨r, hrr, rfl⟩ := List.mem_map.mp hp
      have ht := htrim r hrr
      refine List.mem_map.mpr ⟨mkLong 0 r, ?_, ?_⟩
      · unfold meltRows
        exact List.mem_flatMap.mpr ⟨0, by decide, List.mem_map_of_mem _ hrr⟩
      · unfold longPair mkLong widePair
        rw [ht.1, ht.2]
  have hpairs : List.insertionSort pairLe
      (((meltRows rows).map longPair).dedup) = rows.map widePair := by
    refine List.eq_of_perm_of_sorted ?_
      (List.sorted_insertionSort pairLe _) hsorted
    refine (List.perm_insertionSort pairLe _).trans ?_
    refine (List.perm_ext_iff_of_nodup (List.nodup_dedup _) hnd).mpr ?_
    intro p
    rw [List.mem_dedup]
    exact hmem p
  unfold adaptBudgetLongToClassification
  rw [hpairs, List.map_map]
  refine List.map_congr_left ?_
  intro r hr
  simp only [Function.comp]
  have hfilter := melt_filter_pair rows r htrim hnd hr
  have hmonths : ∀ i ∈ List.range 12,
      (((meltRows rows).filter fun lr =>
        longPair lr = widePair r ∧ pyTitle lr.month = monthName i).map
        (fun lr => lr.budget_amount)).sum =
      toNumeric0 (r.months.getD i (.text "")) := by
    intro i hi
    have hsplit : ((meltRows rows).filter fun lr =>
        longPair lr = widePair r ∧ pyTitle lr.month = monthName i) =
        (((meltRows rows).filter fun lr => longPair lr = widePair r).filter
          fun lr => pyTitle lr.month = monthName i) := by
      rw [List.filter_filter]
      apply List.filter_congr
      intro lr _
      by_cases hA : longPair lr = widePair r <;>
        by_cases hB : pyTitle lr.month = monthName i <;> simp [hA, hB]
    rw [hsplit, hfilter, List.filter_map]
    have hcongr : ((List.range 12).filter
        ((fun lr => decide (pyTitle lr.month = monthName i)) ∘
          fun j => mkLong j r)) =
        ((List.range 12).filter
          (fun j => pyTitle (pyLower (monthName j)) = monthName i)) := by
      apply List.filter_congr
      intro j _
      rfl
    rw [hcongr, month_filter_singleton i hi, List.map_cons, List.map_nil,
      List.map_cons, List.map_nil, List.sum_cons, List.sum_nil]
    unfold mkLong
    rw [add_zero]
  have htotal : (((meltRows rows).filter fun lr =>
      longPair lr = widePair r).map (fun lr => lr.annual_total)).headD 0 =
      toNumeric0 r.total := by
    rw [hfilter]
    rw [show List.range 12 = 0 :: [1, 2, 3, 4, 5, 6, 7, 8, 9, 10, 11] by rfl]
    rfl
  have hm12 := hlen r hr
  have hmonths2 : ((List.range 12).map fun i =>
      (((meltRows rows).filter fun lr =>
        longPair lr = widePair r ∧ pyTitle lr.month = monthName i).map
        (fun lr => lr.budget_amount)).sum) = r.months.map toNumeric0 := by
    rw [← range_getD_map_toNumeric0 r.months hm12]
    exact List.map_congr_left hmonths
  rw [hmonths2, htotal]
  rfl

/-- Witness for the amended C10 at a concrete input: a two-line trimmed,
sorted budget table round-trips to itself with months and totals
numerically coerced (the non-numeric total becoming 0). -/
theorem reshape_roundtrip_amended_witness :
    adaptBudgetLongToClassification (meltRows
      [⟨"Alpha", "A", List.replicate 12 (Cell.num 1), Cell.num 12⟩,
       ⟨"Beta", "B", List.replicate 12 (Cell.num 2), Cell.text "x"⟩]) =
      [⟨"Alpha", "A", (List.replicate 12 (Cell.num 1)).map toNumeric0,
         toNumeric0 (Cell.num 12)⟩,
       ⟨"Beta", "B", (List.replicate 12 (Cell.num 2)).map toNumeric0,
         toNumeric0 (Cell.text "x")⟩] :=
  reshape_roundtrip_amended
    [⟨"Alpha", "A", List.replicate 12 (Cell.num 1), Cell.num 12⟩,
     ⟨"Beta", "B", List.replicate 12 (Cell.num 2), Cell.text "x"⟩]
    (by decide) (by decide) (by decide) (by decide)

/-- Counterexample to C10 as stated: a wide table whose category cell
carries surrounding whitespace is not reproduced exactly — the round
trip returns the trimmed display string. -/
theorem reshape_roundtrip_counterexample :
    ((adaptBudgetLongToClassification (meltRows
      [⟨" Office ", "Supplies", List.replicate 12 (Cell.num 5),
        Cell.num 60⟩])).map (fun r => r.cat)) = ["Office"] ∧
    ("Office" : String) ≠ " Office " := by
  refine ⟨?_, by decide⟩
  norm_num +decide [adaptBudgetLongToClassification, meltRows, mkLong,
    longPair, pyStrip, pyLower, pyTitle, titleChars, normalize_key,
    removeSpaces, monthName, toNumeric0, List.insertionSort,
    List.orderedInsert, List.filter_cons, List.replicate,
    show List.range 12 = [0, 1, 2, 3, 4, 5, 6, 7, 8, 9, 10, 11] from rfl]


end BTA
